import Mathlib

/-!
Shallow embedding of the rate-limited cache-aside retrieval pipeline of the
lofi-api server: the token-bucket rate limiter (rateLimiter.ts), the
products persistence layer (cache and rate-limit state on the external
store), the metrics persistence layer (metricsPersistenceService.ts) and
the catalog query orchestrator (productService.ts).

Modelling conventions:
- JS numbers that take part in arithmetic (points, timestamps, costs) are
  modelled as rationals; sample lists and page limits as integers.
- The external store is modelled as in-memory fields of a system state
  plus a connectivity flag; a disconnected store makes every persistence
  method return null or do nothing, exactly as failedConnection does in
  the source.
- Promise-returning methods are modelled as state-passing functions; the
  one place the source uses a promise without awaiting it in a boolean
  position (the rate-limit gate in executeQuery) is modelled by its actual
  JS semantics: the guard tests the promise object, which is truthy.
- Ghost fields (upstreamCalls, sentFirsts, sleeps) instrument the model
  with the observable events the claims quantify over: network posts
  issued, the first variable sent upstream, and sleeps performed.
-/

/-- MAX_POINTS from rateLimiter.ts. -/
def MAX_POINTS : ℚ := 1000

/-- REFILL_RATE from rateLimiter.ts, points per second. -/
def REFILL_RATE : ℚ := 50

/-- The fixed estimated query complexity used by executeQuery in
productService.ts before each upstream call. -/
def estimatedQueryCost : ℚ := 10

/-- Persisted rate-limit bucket state, as stored under the key
ratelimiter:state by productsPersistenceService. -/
structure RateLimitState where
  points : ℚ
  lastRefillTime : ℚ
deriving Repr, DecidableEq

/-- The internal product shape produced by marshallProduct. -/
structure Product where
  id : String
  title : String
  price : String
  inventory : ℤ
  created_at : String
deriving Repr, DecidableEq

/-- One edge of a paginated product response. -/
structure Edge where
  cursor : String
  node : Product
deriving Repr, DecidableEq

/-- pageInfo of a paginated product response. -/
structure PageInfo where
  hasNextPage : Bool
deriving Repr, DecidableEq

/-- ProductResponse from productService.ts. -/
structure ProductResponse where
  edges : List Edge
  pageInfo : PageInfo
deriving Repr, DecidableEq

/-- Raw product node as returned by the upstream GraphQL API; amount and
totalInventory are optional because the source reads them through
optional chaining and a JS or-default. -/
structure RawProduct where
  id : String
  title : String
  amount : Option String
  totalInventory : Option ℤ
  createdAt : String
deriving Repr, DecidableEq

/-- Raw paginated products payload: a list of cursor-node pairs plus the
hasNextPage flag. -/
structure RawPage where
  edges : List (String × RawProduct)
  hasNextPage : Bool
deriving Repr, DecidableEq

/-- The JS or-default on a possibly missing string: null, undefined and
the empty string are falsy, so they all fall back to the default. -/
def jsOrString (v : Option String) (dflt : String) : String :=
  match v with
  | some s => if s = "" then dflt else s
  | none => dflt

/-- The JS or-default on a possibly missing number: null, undefined and 0
are falsy, so they all fall back to the default. -/
def jsOrInt (v : Option ℤ) (dflt : ℤ) : ℤ :=
  match v with
  | some n => if n = 0 then dflt else n
  | none => dflt

/-- marshallProduct from productService.ts: transform a raw upstream node
into the internal Product shape. -/
def marshallProduct (node : RawProduct) : Product :=
  { id := node.id
    title := node.title
    price := jsOrString node.amount "0"
    inventory := jsOrInt node.totalInventory 0
    created_at := node.createdAt }

/-- Aggregated metrics snapshot fields for the endpoint class. -/
structure ResponseTimes where
  average : ℤ
  max : ℤ
  min : ℤ
deriving Repr, DecidableEq

/-- ProductStats from metricsService.ts. -/
structure ProductStats where
  endpoint_response_times_ms : ResponseTimes
  total_endpoint_calls : ℕ
  average_shopify_call_responsetime_ms : ℤ
  total_shopify_api_calls : ℕ
deriving Repr, DecidableEq

/-- State held by metricsPersistenceService in the external store: the
two rolling sample lists (most recent first, matching lPush) and the two
call counters, plus the connectivity flag of its client. -/
structure MetricsStore where
  isConnected : Bool
  endpointTimes : List ℤ
  endpointCalls : ℕ
  shopifyTimes : List ℤ
  shopifyCalls : ℕ
deriving Repr, DecidableEq

/-- recordEndpointMetric: push the sample onto the endpoint list and
increment the endpoint counter; a no-op when the store is unavailable. -/
def recordEndpointMetric (responseTimeMs : ℤ) (m : MetricsStore) : MetricsStore :=
  if m.isConnected then
    { m with
      endpointTimes := responseTimeMs :: m.endpointTimes
      endpointCalls := m.endpointCalls + 1 }
  else m

/-- recordShopifyMetric: push the sample onto the shopify list and
increment the shopify counter; a no-op when the store is unavailable. -/
def recordShopifyMetric (responseTimeMs : ℤ) (m : MetricsStore) : MetricsStore :=
  if m.isConnected then
    { m with
      shopifyTimes := responseTimeMs :: m.shopifyTimes
      shopifyCalls := m.shopifyCalls + 1 }
  else m

/-- The all-zero snapshot returned when the metrics store is unavailable. -/
def zeroStats : ProductStats :=
  { endpoint_response_times_ms := { average := 0, max := 0, min := 0 }
    total_endpoint_calls := 0
    average_shopify_call_responsetime_ms := 0
    total_shopify_api_calls := 0 }

/-- Maximum of a sample list, 0 on the empty list, matching the source
which initializes endpointMax to 0 and only overwrites it when the list
is nonempty. -/
def listMax : List ℤ → ℤ
  | [] => 0
  | t :: ts => ts.foldl max t

/-- Minimum of a sample list, 0 on the empty list, as in listMax. -/
def listMin : List ℤ → ℤ
  | [] => 0
  | t :: ts => ts.foldl min t

/-- getMetrics from metricsPersistenceService.ts: an all-zero snapshot
when the store is unavailable, otherwise averages (rounded as Math.round
does, half up), max, min and totals computed from the current lists and
counters. -/
def getMetrics (m : MetricsStore) : ProductStats :=
  if m.isConnected then
    let endpointAvg : ℚ :=
      if 0 < m.endpointTimes.length then
        (m.endpointTimes.sum : ℚ) / (m.endpointTimes.length : ℚ)
      else 0
    let shopifyAvg : ℚ :=
      if 0 < m.shopifyTimes.length then
        (m.shopifyTimes.sum : ℚ) / (m.shopifyTimes.length : ℚ)
      else 0
    { endpoint_response_times_ms :=
        { average := round endpointAvg
          max := listMax m.endpointTimes
          min := listMin m.endpointTimes }
      total_endpoint_calls := m.endpointCalls
      average_shopify_call_responsetime_ms := round shopifyAvg
      total_shopify_api_calls := m.shopifyCalls }
  else zeroStats

/-- resetMetrics: delete the four metric keys; a no-op when the store is
unavailable. -/
def resetMetrics (m : MetricsStore) : MetricsStore :=
  if m.isConnected then
    { m with endpointTimes := [], endpointCalls := 0, shopifyTimes := [], shopifyCalls := 0 }
  else m

/-- Whole-system state: the products store client (product cache, list
cache, rate-limit state, connectivity), the metrics store, and ghost
instrumentation recording the observable events of the orchestrator. -/
structure Sys where
  connected : Bool
  cache : List (String × Product)
  listCache : List (String × ProductResponse)
  rlState : Option RateLimitState
  metrics : MetricsStore
  upstreamCalls : ℕ
  sentFirsts : List ℤ
  sleeps : List ℤ
deriving Repr, DecidableEq

/-- Lookup in a modelled key-value store, most recent write first. -/
def storeLookup {β : Type} (key : String) : List (String × β) → Option β
  | [] => none
  | (k, v) :: rest => if k = key then some v else storeLookup key rest

/-- getRateLimitState from productsPersistenceService: null when
disconnected, else the stored state. -/
def getRateLimitState (s : Sys) : Option RateLimitState :=
  if s.connected then s.rlState else none

/-- updateRateLimitState: overwrite the stored bucket state; a no-op when
disconnected. -/
def updateRateLimitState (points lastRefillTime : ℚ) (s : Sys) : Sys :=
  if s.connected then { s with rlState := some ⟨points, lastRefillTime⟩ } else s

/-- refillBucket from rateLimiter.ts: read the persisted state (default
to a full bucket stamped now when absent), add elapsed-seconds times
REFILL_RATE capped at MAX_POINTS, persist the result stamped now, and
return it. -/
def refillBucket (now : ℚ) (s : Sys) : ℚ × Sys :=
  let state := (getRateLimitState s).getD ⟨MAX_POINTS, now⟩
  let timeSinceLastRefill := (now - state.lastRefillTime) / 1000
  let pointsToAdd := timeSinceLastRefill * REFILL_RATE
  let availablePoints := min MAX_POINTS (state.points + pointsToAdd)
  (availablePoints, updateRateLimitState availablePoints now s)

/-- canExecute from rateLimiter.ts: refill, then compare available points
against the query complexity. -/
def canExecute (queryComplexity : ℚ) (now : ℚ) (s : Sys) : Bool × Sys :=
  let (availablePoints, s1) := refillBucket now s
  (decide (queryComplexity ≤ availablePoints), s1)

/-- consume from rateLimiter.ts: read the persisted state and, when it
exists, write back points minus the cost with lastRefillTime unchanged.
The subtraction is not clamped at zero in the source. -/
def consume (queryComplexity : ℚ) (s : Sys) : Sys :=
  match getRateLimitState s with
  | some state => updateRateLimitState (state.points - queryComplexity) state.lastRefillTime s
  | none => s

/-- getWaitTimeMs from rateLimiter.ts: refill, then 0 if enough points,
else the ceiling of the refill time in milliseconds for the deficit. -/
def getWaitTimeMs (queryComplexity : ℚ) (now : ℚ) (s : Sys) : ℤ × Sys :=
  let (points, s1) := refillBucket now s
  if queryComplexity ≤ points then (0, s1)
  else (Int.ceil ((queryComplexity - points) / REFILL_RATE * 1000), s1)

/-- getCachedProduct: null when disconnected, else the cached value under
the key product:id. -/
def getCachedProduct (productId : String) (s : Sys) : Option Product :=
  if s.connected then storeLookup ("product:" ++ productId) s.cache else none

/-- cacheProduct: store the product under product:id; a no-op when
disconnected. -/
def cacheProduct (productId : String) (productData : Product) (s : Sys) : Sys :=
  if s.connected then { s with cache := ("product:" ++ productId, productData) :: s.cache }
  else s

/-- The list-cache key: products:list: followed by the cursor, or the
sentinel start when the cursor is null or the empty string (both falsy). -/
def listKey (cursor : Option String) : String :=
  "products:list:" ++ (match cursor with
                       | some c => if c = "" then "start" else c
                       | none => "start")

/-- getCachedProductsList: null when disconnected, else the cached page
under the cursor key. -/
def getCachedProductsList (cursor : Option String) (s : Sys) : Option ProductResponse :=
  if s.connected then storeLookup (listKey cursor) s.listCache else none

/-- cacheProductsList: store the page under the cursor key; a no-op when
disconnected. -/
def cacheProductsList (cursor : Option String) (page : ProductResponse) (s : Sys) : Sys :=
  if s.connected then { s with listCache := (listKey cursor, page) :: s.listCache }
  else s

/-- Outcome of one upstream HTTP attempt: either the request itself fails
(network failure or a non-2xx status, both of which make axios throw), or
an HTTP-level success carrying an optional GraphQL errors list, the
actualQueryCost reported in extensions, and the data payload. -/
inductive UpstreamOutcome (α : Type) where
  | requestFailed (msg : String)
  | http (errors : Option (List String)) (actualQueryCost : ℚ) (payload : α)

/-- The rate-limit gate at the top of executeQuery. In the source the
guard reads: if (!this.rateLimiter.canExecute(queryComplexity)). The call
to canExecute is not awaited, so the guard tests the promise object
itself; a promise is a truthy JS value, hence the negation is always
false and the sleep branch is never taken. The un-awaited call still runs
and refills the bucket. -/
def executeQueryGate (now : ℚ) (s : Sys) : Sys :=
  let (_resolvedLater, s1) := canExecute estimatedQueryCost now s
  let promiseIsTruthy := true
  if promiseIsTruthy = false then
    let (waitTime, s2) := getWaitTimeMs estimatedQueryCost now s1
    { s2 with sleeps := waitTime :: s2.sleeps }
  else s1

/-- executeQuery from productService.ts: run the rate-limit gate, issue
the upstream post (instrumented by the ghost counters; firstVar is the
first variable when the query is the paginated list query), then on an
HTTP success consume the actual reported cost, record the elapsed time,
and throw a single aggregated error if the body carries a GraphQL errors
list; on a request failure the catch block records the elapsed time and
rethrows. t1 is the elapsed time measured before the throw, t2 the one
measured in the catch block. -/
def executeQuery {α : Type} (now : ℚ) (t1 t2 : ℤ) (firstVar : Option ℤ)
    (out : UpstreamOutcome α) (s : Sys) : Except String α × Sys :=
  let s1 := executeQueryGate now s
  let s2 := { s1 with
              upstreamCalls := s1.upstreamCalls + 1
              sentFirsts := match firstVar with
                            | some f => f :: s1.sentFirsts
                            | none => s1.sentFirsts }
  match out with
  | .requestFailed msg =>
      (Except.error msg, { s2 with metrics := recordShopifyMetric t2 s2.metrics })
  | .http errors cost payload =>
      let s3 := consume cost s2
      let s4 := { s3 with metrics := recordShopifyMetric t1 s3.metrics }
      match errors with
      | some es =>
          (Except.error ("GraphQL Error: " ++ String.intercalate "; " es),
           { s4 with metrics := recordShopifyMetric t2 s4.metrics })
      | none => (Except.ok payload, s4)

/-- The canonical upstream identifier built by getProductById. -/
def normalizeId (id : String) : String := "gid://shopify/Product/" ++ id

/-- getProductById from productService.ts: normalize the id, return the
cached product on a hit; on a miss run executeQuery and, because the
whole body sits in a try block whose catch returns null, map any upstream
failure to null; a response without a product is also null; otherwise
marshall, cache and return the product. -/
def getProductById (now : ℚ) (t1 t2 : ℤ) (out : UpstreamOutcome (Option RawProduct))
    (id : String) (s : Sys) : Option Product × Sys :=
  let gid := normalizeId id
  match getCachedProduct gid s with
  | some cached => (some cached, s)
  | none =>
      match executeQuery now t1 t2 none out s with
      | (Except.error _, s1) => (none, s1)
      | (Except.ok none, s1) => (none, s1)
      | (Except.ok (some raw), s1) =>
          let product := marshallProduct raw
          (some product, cacheProduct gid product s1)

/-- The page returned by the catch block of listProducts. -/
def emptyPage : ProductResponse := { edges := [], pageInfo := { hasNextPage := false } }

/-- The cache-miss path of listProducts: run executeQuery with the
clamped page size as the first variable; the catch block maps any
upstream failure to an empty page; on success marshall the edges, cache
the page under the cursor key and return it. -/
def listFetch (now : ℚ) (t1 t2 : ℤ) (out : UpstreamOutcome RawPage)
    (first : ℤ) (cursor : Option String) (s : Sys) : ProductResponse × Sys :=
  match executeQuery now t1 t2 (some first) out s with
  | (Except.error _, s1) => (emptyPage, s1)
  | (Except.ok raw, s1) =>
      let page : ProductResponse :=
        { edges := raw.edges.map (fun e => { cursor := e.1, node := marshallProduct e.2 })
          pageInfo := { hasNextPage := raw.hasNextPage } }
      (page, cacheProductsList cursor page s1)

/-- listProducts from productService.ts: clamp the limit to the range 1
to 250 for the first variable; return the cached page when one exists
under the cursor key and its edge count is at least the requested
(unclamped) limit; otherwise take the fetch path. -/
def listProducts (now : ℚ) (t1 t2 : ℤ) (out : UpstreamOutcome RawPage)
    (limit : ℤ) (cursor : Option String) (s : Sys) : ProductResponse × Sys :=
  let first := min (max 1 limit) 250
  match getCachedProductsList cursor s with
  | some cached =>
      if (cached.edges.length : ℤ) ≥ limit then (cached, s)
      else listFetch now t1 t2 out first cursor s
  | none => listFetch now t1 t2 out first cursor s

/-- An empty, connected metrics store. -/
def m0 : MetricsStore :=
  { isConnected := true, endpointTimes := [], endpointCalls := 0
    shopifyTimes := [], shopifyCalls := 0 }

/-- A disconnected metrics store holding stale data, for the fail-open
witness. -/
def mDown : MetricsStore :=
  { isConnected := false, endpointTimes := [7], endpointCalls := 1
    shopifyTimes := [9], shopifyCalls := 2 }

/-- A connected system with empty caches, an empty bucket (zero points,
last refill at time 0) and a connected metrics store. -/
def sysLow : Sys :=
  { connected := true, cache := [], listCache := []
    rlState := some ⟨0, 0⟩, metrics := m0
    upstreamCalls := 0, sentFirsts := [], sleeps := [] }

/-- A connected system whose bucket holds 5 points. -/
def sysFive : Sys :=
  { connected := true, cache := [], listCache := []
    rlState := some ⟨5, 0⟩, metrics := m0
    upstreamCalls := 0, sentFirsts := [], sleeps := [] }

/-- A connected system with empty caches and no persisted bucket state. -/
def sysEmpty : Sys :=
  { connected := true, cache := [], listCache := []
    rlState := none, metrics := m0
    upstreamCalls := 0, sentFirsts := [], sleeps := [] }

/-- A system whose products store client is disconnected. -/
def sysDown : Sys :=
  { connected := false, cache := [("product:gid://shopify/Product/1", ⟨"a", "b", "1", 1, "c"⟩)]
    listCache := [], rlState := some ⟨3, 7⟩, metrics := mDown
    upstreamCalls := 0, sentFirsts := [], sleeps := [] }

/-- A sample raw product for witnesses. -/
def rawSample : RawProduct :=
  { id := "gid://shopify/Product/1", title := "Lofi Beats"
    amount := some "19.99", totalInventory := some 3, createdAt := "2024-01-01" }

/-- A one-edge cached page for witnesses. -/
def pageOne : ProductResponse :=
  { edges := [{ cursor := "c1", node := ⟨"p1", "t1", "9", 2, "d1"⟩ }]
    pageInfo := { hasNextPage := true } }

/-- A connected system whose list cache holds the one-edge page under the
start key. -/
def sysShortList : Sys :=
  { connected := true, cache := [], listCache := [("products:list:start", pageOne)]
    rlState := some ⟨500, 0⟩, metrics := m0
    upstreamCalls := 0, sentFirsts := [], sleeps := [] }

/-! ### Helper lemmas -/

@[simp] lemma updateRateLimitState_connected (p t : ℚ) (s : Sys) :
    (updateRateLimitState p t s).connected = s.connected := by
  unfold updateRateLimitState; split <;> rfl

@[simp] lemma updateRateLimitState_cache (p t : ℚ) (s : Sys) :
    (updateRateLimitState p t s).cache = s.cache := by
  unfold updateRateLimitState; split <;> rfl

@[simp] lemma updateRateLimitState_listCache (p t : ℚ) (s : Sys) :
    (updateRateLimitState p t s).listCache = s.listCache := by
  unfold updateRateLimitState; split <;> rfl

@[simp] lemma updateRateLimitState_metrics (p t : ℚ) (s : Sys) :
    (updateRateLimitState p t s).metrics = s.metrics := by
  unfold updateRateLimitState; split <;> rfl

@[simp] lemma updateRateLimitState_upstreamCalls (p t : ℚ) (s : Sys) :
    (updateRateLimitState p t s).upstreamCalls = s.upstreamCalls := by
  unfold updateRateLimitState; split <;> rfl

@[simp] lemma updateRateLimitState_sentFirsts (p t : ℚ) (s : Sys) :
    (updateRateLimitState p t s).sentFirsts = s.sentFirsts := by
  unfold updateRateLimitState; split <;> rfl

@[simp] lemma updateRateLimitState_sleeps (p t : ℚ) (s : Sys) :
    (updateRateLimitState p t s).sleeps = s.sleeps := by
  unfold updateRateLimitState; split <;> rfl

lemma updateRateLimitState_rlState (p t : ℚ) (s : Sys) (hs : s.connected = true) :
    (updateRateLimitState p t s).rlState = some ⟨p, t⟩ := by
  unfold updateRateLimitState; rw [hs]; rfl

@[simp] lemma executeQueryGate_eq (now : ℚ) (s : Sys) :
    executeQueryGate now s = (refillBucket now s).2 := rfl

@[simp] lemma refillBucket_snd (now : ℚ) (s : Sys) :
    (refillBucket now s).2 = updateRateLimitState (refillBucket now s).1 now s := rfl

lemma consume_cache (c : ℚ) (s : Sys) : (consume c s).cache = s.cache := by
  unfold consume; cases getRateLimitState s <;> simp

lemma consume_connected (c : ℚ) (s : Sys) : (consume c s).connected = s.connected := by
  unfold consume; cases getRateLimitState s <;> simp

lemma consume_listCache (c : ℚ) (s : Sys) : (consume c s).listCache = s.listCache := by
  unfold consume; cases getRateLimitState s <;> simp

lemma consume_metrics (c : ℚ) (s : Sys) : (consume c s).metrics = s.metrics := by
  unfold consume; cases getRateLimitState s <;> simp

lemma consume_upstreamCalls (c : ℚ) (s : Sys) : (consume c s).upstreamCalls = s.upstreamCalls := by
  unfold consume; cases getRateLimitState s <;> simp

lemma consume_sentFirsts (c : ℚ) (s : Sys) : (consume c s).sentFirsts = s.sentFirsts := by
  unfold consume; cases getRateLimitState s <;> simp

lemma consume_sleeps (c : ℚ) (s : Sys) : (consume c s).sleeps = s.sleeps := by
  unfold consume; cases getRateLimitState s <;> simp

/-! ### Claim theorems -/

/-- C1 (code bug): the claim says executeQuery sleeps for
getWaitTimeMs(estimatedCost) whenever canExecute(estimatedCost) is false.
In the source the guard tests the un-awaited promise returned by
canExecute, which is truthy, so the sleep branch is dead code: no call
ever sleeps, even when canExecute resolves to false, as it does on the
concrete system sysLow whose bucket is empty. -/
theorem C1_gate_never_sleeps :
    (∀ (α : Type) (now : ℚ) (t1 t2 : ℤ) (firstVar : Option ℤ)
       (out : UpstreamOutcome α) (s : Sys),
       ((executeQuery now t1 t2 firstVar out s).2).sleeps = s.sleeps) ∧
    (canExecute estimatedQueryCost 0 sysLow).1 = false := by
  constructor
  · intro α now t1 t2 firstVar out s
    cases out with
    | requestFailed msg =>
        simp [executeQuery, recordShopifyMetric]
    | http errors cost payload =>
        cases errors <;>
          simp [executeQuery, recordShopifyMetric, consume_sleeps]
  · have hval : (refillBucket 0 sysLow).1 = 0 := by
      norm_num [refillBucket, getRateLimitState, sysLow, MAX_POINTS, REFILL_RATE]
    have hce : (canExecute estimatedQueryCost 0 sysLow).1
        = decide (estimatedQueryCost ≤ (refillBucket 0 sysLow).1) := rfl
    rw [hce, hval]
    exact decide_eq_false (by norm_num [estimatedQueryCost])

/-- C3 (amended): for a persisted state satisfying the invariant
0 ≤ points ≤ MAX_POINTS, refillBucket preserves the invariant whenever
the current time is not before lastRefillTime, and consume(cost)
preserves it when 0 ≤ cost ≤ points; consume writes points minus cost
back unclamped, so the lower bound survives only under that extra
hypothesis. -/
theorem C3_invariant_amended (s : Sys) (st : RateLimitState) (now cost : ℚ)
    (hs : s.connected = true) (hst : s.rlState = some st)
    (h0 : 0 ≤ st.points) (h1 : st.points ≤ MAX_POINTS) :
    (st.lastRefillTime ≤ now →
      (refillBucket now s).2.rlState = some ⟨(refillBucket now s).1, now⟩ ∧
      0 ≤ (refillBucket now s).1 ∧ (refillBucket now s).1 ≤ MAX_POINTS) ∧
    (0 ≤ cost → cost ≤ st.points →
      (consume cost s).rlState = some ⟨st.points - cost, st.lastRefillTime⟩ ∧
      0 ≤ st.points - cost ∧ st.points - cost ≤ MAX_POINTS) := by
  constructor
  · intro hnow
    refine ⟨updateRateLimitState_rlState _ _ _ hs, ?_, ?_⟩
    · have hval : (refillBucket now s).1
          = min MAX_POINTS (st.points + (now - st.lastRefillTime) / 1000 * REFILL_RATE) := by
        simp [refillBucket, getRateLimitState, hs, hst]
      rw [hval]
      have hadd : (0:ℚ) ≤ (now - st.lastRefillTime) / 1000 * REFILL_RATE := by
        have hnn : (0:ℚ) ≤ now - st.lastRefillTime := by linarith
        have : (0:ℚ) ≤ REFILL_RATE := by norm_num [REFILL_RATE]
        positivity
      exact le_min (by norm_num [MAX_POINTS]) (by linarith)
    · have hval : (refillBucket now s).1
          = min MAX_POINTS (st.points + (now - st.lastRefillTime) / 1000 * REFILL_RATE) := by
        simp [refillBucket, getRateLimitState, hs, hst]
      rw [hval]
      exact min_le_left _ _
  · intro hc0 hc1
    refine ⟨?_, by linarith, by linarith⟩
    have : consume cost s = updateRateLimitState (st.points - cost) st.lastRefillTime s := by
      simp [consume, getRateLimitState, hs, hst]
    rw [this, updateRateLimitState_rlState _ _ _ hs]

/-- Witness for C3_invariant_amended at the concrete system sysFive with
now = 2 and cost = 3. -/
theorem C3_invariant_amended_witness :
    (consume 3 sysFive).rlState = some ⟨5 - 3, 0⟩ ∧
    (0:ℚ) ≤ 5 - 3 ∧ (5:ℚ) - 3 ≤ MAX_POINTS :=
  (C3_invariant_amended sysFive ⟨5, 0⟩ 2 3 rfl rfl (by norm_num)
      (by norm_num [MAX_POINTS])).2 (by norm_num) (by norm_num)

/-- C3 counterexample: on the concrete system sysFive whose bucket holds
5 points, consume 10 writes back a state with points = -5, violating the
claimed invariant 0 ≤ points. -/
theorem C3_counterexample :
    (consume 10 sysFive).rlState = some ⟨-5, 0⟩ ∧ ¬ ((0:ℚ) ≤ -5) := by
  constructor
  · have h : consume 10 sysFive = updateRateLimitState ((5:ℚ) - 10) 0 sysFive := by
      simp [consume, getRateLimitState, sysFive]
    rw [h, updateRateLimitState_rlState _ _ _ rfl]
    simp only [Option.some.injEq, RateLimitState.mk.injEq]
    norm_num
  · norm_num

/-- C4: refillBucket computes
min MAX_POINTS (points + (now - lastRefillTime) / 1000 * REFILL_RATE),
persists that value stamped now, and returns it; with no persisted state
it defaults to a full bucket stamped now, so immediately after
initialization canExecute(cost) is true for every cost ≤ MAX_POINTS. -/
theorem C4_refill_formula (s : Sys) (now : ℚ) (hs : s.connected = true) :
    (∀ st : RateLimitState, s.rlState = some st →
      (refillBucket now s).1
          = min MAX_POINTS (st.points + (now - st.lastRefillTime) / 1000 * REFILL_RATE) ∧
      (refillBucket now s).2.rlState = some ⟨(refillBucket now s).1, now⟩) ∧
    (s.rlState = none →
      (refillBucket now s).1 = MAX_POINTS ∧
      (refillBucket now s).2.rlState = some ⟨MAX_POINTS, now⟩ ∧
      ∀ cost : ℚ, cost ≤ MAX_POINTS → (canExecute cost now s).1 = true) := by
  have hdef : (refillBucket now s).2.rlState = some ⟨(refillBucket now s).1, now⟩ := by
    rw [refillBucket_snd, updateRateLimitState_rlState _ _ _ hs]
  constructor
  · intro st hst
    exact ⟨by simp [refillBucket, getRateLimitState, hs, hst], hdef⟩
  · intro hnone
    have hval : (refillBucket now s).1 = MAX_POINTS := by
      simp [refillBucket, getRateLimitState, hs, hnone]
    refine ⟨hval, by rw [hdef, hval], ?_⟩
    intro cost hcost
    have : (canExecute cost now s).1 = decide (cost ≤ (refillBucket now s).1) := rfl
    rw [this, hval]
    exact decide_eq_true hcost

/-- Witness for C4_refill_formula: the stored-state branch at sysFive
with now = 2, and the default branch at sysEmpty with cost = 10. -/
theorem C4_refill_formula_witness :
    (refillBucket 2 sysFive).1
        = min MAX_POINTS (5 + (2 - 0) / 1000 * REFILL_RATE) ∧
    (canExecute 10 0 sysEmpty).1 = true :=
  ⟨((C4_refill_formula sysFive 2 rfl).1 ⟨5, 0⟩ rfl).1,
   ((C4_refill_formula sysEmpty 0 rfl).2 rfl).2.2 10 (by norm_num [MAX_POINTS])⟩

/-- C9: with the store unavailable every operation fails open: cache
reads (single product and list page) return a miss, the rate-limit state
read returns null so refill defaults to a full bucket of MAX_POINTS and
canExecute allows every cost up to MAX_POINTS, and getMetrics returns
the all-zero snapshot. -/
theorem C9_fails_open :
    (∀ s : Sys, s.connected = false →
      (∀ key, getCachedProduct key s = none) ∧
      (∀ cursor, getCachedProductsList cursor s = none) ∧
      getRateLimitState s = none ∧
      (∀ now : ℚ, (refillBucket now s).1 = MAX_POINTS) ∧
      (∀ cost now : ℚ, cost ≤ MAX_POINTS → (canExecute cost now s).1 = true)) ∧
    (∀ m : MetricsStore, m.isConnected = false → getMetrics m = zeroStats) := by
  constructor
  · intro s hs
    refine ⟨fun key => by simp [getCachedProduct, hs],
            fun cursor => by simp [getCachedProductsList, hs],
            by simp [getRateLimitState, hs], ?_, ?_⟩
    · intro now
      simp [refillBucket, getRateLimitState, hs]
    · intro cost now hcost
      have hval : (refillBucket now s).1 = MAX_POINTS := by
        simp [refillBucket, getRateLimitState, hs]
      have : (canExecute cost now s).1 = decide (cost ≤ (refillBucket now s).1) := rfl
      rw [this, hval]
      exact decide_eq_true hcost
  · intro m hm
    simp [getMetrics, hm]

/-- Witness for C9_fails_open at the concrete disconnected system
sysDown and disconnected metrics store mDown. -/
theorem C9_fails_open_witness :
    getCachedProduct "gid://shopify/Product/1" sysDown = none ∧
    (canExecute 10 0 sysDown).1 = true ∧
    getMetrics mDown = zeroStats :=
  ⟨(C9_fails_open.1 sysDown rfl).1 _,
   (C9_fails_open.1 sysDown rfl).2.2.2.2 10 0 (by norm_num [MAX_POINTS]),
   C9_fails_open.2 mDown rfl⟩

lemma updateRateLimitState_eq (p t : ℚ) (s : Sys) (hs : s.connected = true) :
    updateRateLimitState p t s = { s with rlState := some ⟨p, t⟩ } := by
  simp [updateRateLimitState, hs]

@[simp] lemma cacheProduct_connected (key : String) (p : Product) (s : Sys) :
    (cacheProduct key p s).connected = s.connected := by
  unfold cacheProduct; split <;> rfl

@[simp] lemma cacheProduct_upstreamCalls (key : String) (p : Product) (s : Sys) :
    (cacheProduct key p s).upstreamCalls = s.upstreamCalls := by
  unfold cacheProduct; split <;> rfl

@[simp] lemma cacheProductsList_upstreamCalls (cursor : Option String) (p : ProductResponse)
    (s : Sys) : (cacheProductsList cursor p s).upstreamCalls = s.upstreamCalls := by
  unfold cacheProductsList; split <;> rfl

@[simp] lemma cacheProductsList_sentFirsts (cursor : Option String) (p : ProductResponse)
    (s : Sys) : (cacheProductsList cursor p s).sentFirsts = s.sentFirsts := by
  unfold cacheProductsList; split <;> rfl

lemma executeQuery_connected {α : Type} (now : ℚ) (t1 t2 : ℤ) (fv : Option ℤ)
    (out : UpstreamOutcome α) (s : Sys) :
    ((executeQuery now t1 t2 fv out s).2).connected = s.connected := by
  cases out with
  | requestFailed msg => simp [executeQuery]
  | http errors cost payload => cases errors <;> simp [executeQuery, consume_connected]

lemma executeQuery_cache {α : Type} (now : ℚ) (t1 t2 : ℤ) (fv : Option ℤ)
    (out : UpstreamOutcome α) (s : Sys) :
    ((executeQuery now t1 t2 fv out s).2).cache = s.cache := by
  cases out with
  | requestFailed msg => simp [executeQuery]
  | http errors cost payload => cases errors <;> simp [executeQuery, consume_cache]

lemma executeQuery_calls {α : Type} (now : ℚ) (t1 t2 : ℤ) (fv : Option ℤ)
    (out : UpstreamOutcome α) (s : Sys) :
    ((executeQuery now t1 t2 fv out s).2).upstreamCalls = s.upstreamCalls + 1 := by
  cases out with
  | requestFailed msg => simp [executeQuery]
  | http errors cost payload => cases errors <;> simp [executeQuery, consume_upstreamCalls]

lemma executeQuery_sentFirst {α : Type} (now : ℚ) (t1 t2 : ℤ) (f : ℤ)
    (out : UpstreamOutcome α) (s : Sys) :
    ((executeQuery now t1 t2 (some f) out s).2).sentFirsts = f :: s.sentFirsts := by
  cases out with
  | requestFailed msg => simp [executeQuery]
  | http errors cost payload => cases errors <;> simp [executeQuery, consume_sentFirsts]

lemma consume_rlState (c : ℚ) (s : Sys) (st : RateLimitState)
    (hs : s.connected = true) (hst : s.rlState = some st) :
    (consume c s).rlState = some ⟨st.points - c, st.lastRefillTime⟩ := by
  have : consume c s = updateRateLimitState (st.points - c) st.lastRefillTime s := by
    simp [consume, getRateLimitState, hs, hst]
  rw [this, updateRateLimitState_rlState _ _ _ hs]

lemma executeQuery_rlState_http {α : Type} (now : ℚ) (t1 t2 : ℤ) (fv : Option ℤ)
    (errors : Option (List String)) (cost : ℚ) (payload : α) (s : Sys)
    (hs : s.connected = true) :
    ((executeQuery now t1 t2 fv (.http errors cost payload) s).2).rlState
      = some ⟨(refillBucket now s).1 - cost, now⟩ := by
  cases errors <;>
    simp [executeQuery, updateRateLimitState, consume, getRateLimitState,
          recordShopifyMetric, hs]

lemma getCachedProduct_cacheProduct (key : String) (p : Product) (s : Sys)
    (hs : s.connected = true) :
    getCachedProduct key (cacheProduct key p s) = some p := by
  simp [getCachedProduct, cacheProduct, hs, storeLookup]

lemma listFetch_calls (now : ℚ) (t1 t2 : ℤ) (out : UpstreamOutcome RawPage)
    (first : ℤ) (cursor : Option String) (s : Sys) :
    (listFetch now t1 t2 out first cursor s).2.upstreamCalls = s.upstreamCalls + 1 := by
  have hq := executeQuery_calls now t1 t2 (some first) out s
  unfold listFetch
  rcases hout : executeQuery now t1 t2 (some first) out s with ⟨res, s1⟩
  rw [hout] at hq
  cases res with
  | error e => simpa using hq
  | ok raw => simpa using hq

lemma listFetch_sentFirsts (now : ℚ) (t1 t2 : ℤ) (out : UpstreamOutcome RawPage)
    (first : ℤ) (cursor : Option String) (s : Sys) :
    (listFetch now t1 t2 out first cursor s).2.sentFirsts = first :: s.sentFirsts := by
  have hf := executeQuery_sentFirst now t1 t2 first out s
  unfold listFetch
  rcases hout : executeQuery now t1 t2 (some first) out s with ⟨res, s1⟩
  rw [hout] at hf
  cases res with
  | error e => simpa using hf
  | ok raw => simpa using hf

/-- C2 counterexample: on the concrete connected system sysEmpty, an
upstream request failure makes getProductById return none, the very same
value it returns for a legitimate not-found response, so no failure is
propagated to the caller and the two outcomes are not distinct. -/
theorem C2_counterexample :
    (getProductById 0 0 0 (.requestFailed "connect ECONNREFUSED") "1" sysEmpty).1 = none ∧
    (getProductById 0 0 0 (.http none 10 none) "1" sysEmpty).1 = none :=
  ⟨rfl, rfl⟩

/-- C2 (amended): executeQuery does propagate every upstream failure as
a single failure (the request error, or the GraphQL error messages
joined with a semicolon) to its caller inside the orchestrator, but
getProductById catches it and returns none, the same value as a
legitimate not-found result, and listProducts catches it and returns an
empty page. -/
theorem C2_amended :
    (∀ (α : Type) (now : ℚ) (t1 t2 : ℤ) (fv : Option ℤ) (msg : String) (s : Sys),
       (executeQuery (α := α) now t1 t2 fv (.requestFailed msg) s).1 = Except.error msg) ∧
    (∀ (α : Type) (now : ℚ) (t1 t2 : ℤ) (fv : Option ℤ) (es : List String)
       (cost : ℚ) (payload : α) (s : Sys),
       (executeQuery now t1 t2 fv (.http (some es) cost payload) s).1
         = Except.error ("GraphQL Error: " ++ String.intercalate "; " es)) ∧
    (∀ (now : ℚ) (t1 t2 : ℤ) (msg : String) (id : String) (s : Sys),
       getCachedProduct (normalizeId id) s = none →
       (getProductById now t1 t2 (.requestFailed msg) id s).1 = none) ∧
    (∀ (now : ℚ) (t1 t2 : ℤ) (es : List String) (cost : ℚ)
       (payload : Option RawProduct) (id : String) (s : Sys),
       getCachedProduct (normalizeId id) s = none →
       (getProductById now t1 t2 (.http (some es) cost payload) id s).1 = none) ∧
    (∀ (now : ℚ) (t1 t2 : ℤ) (msg : String) (limit : ℤ) (cursor : Option String) (s : Sys),
       getCachedProductsList cursor s = none →
       (listProducts now t1 t2 (.requestFailed msg) limit cursor s).1 = emptyPage) ∧
    (∀ (now : ℚ) (t1 t2 : ℤ) (es : List String) (cost : ℚ) (payload : RawPage)
       (limit : ℤ) (cursor : Option String) (s : Sys),
       getCachedProductsList cursor s = none →
       (listProducts now t1 t2 (.http (some es) cost payload) limit cursor s).1 = emptyPage) := by
  refine ⟨fun α now t1 t2 fv msg s => rfl,
          fun α now t1 t2 fv es cost payload s => rfl, ?_, ?_, ?_, ?_⟩
  · intro now t1 t2 msg id s hm
    simp only [getProductById, hm]
    rfl
  · intro now t1 t2 es cost payload id s hm
    simp only [getProductById, hm]
    rfl
  · intro now t1 t2 msg limit cursor s hm
    simp only [listProducts, hm]
    rfl
  · intro now t1 t2 es cost payload limit cursor s hm
    simp only [listProducts, hm]
    rfl

/-- Witness for C2_amended at concrete inputs on sysEmpty. -/
theorem C2_amended_witness :
    (executeQuery (α := Unit) 0 0 0 none (.requestFailed "boom") sysEmpty).1
      = Except.error "boom" ∧
    (executeQuery (α := Unit) 0 0 0 none (.http (some ["a", "b"]) 10 ()) sysEmpty).1
      = Except.error ("GraphQL Error: " ++ String.intercalate "; " ["a", "b"]) ∧
    (getProductById 0 0 0 (.requestFailed "boom") "1" sysEmpty).1 = none ∧
    (listProducts 0 0 0 (.requestFailed "boom") 10 none sysEmpty).1 = emptyPage :=
  ⟨C2_amended.1 Unit 0 0 0 none "boom" sysEmpty,
   C2_amended.2.1 Unit 0 0 0 none ["a", "b"] 10 () sysEmpty,
   C2_amended.2.2.1 0 0 0 "boom" "1" sysEmpty rfl,
   C2_amended.2.2.2.2.1 0 0 0 "boom" 10 none sysEmpty rfl⟩

/-- C5: in listProducts a cached page under the cursor key is a hit
exactly when it exists and its edge count is at least the requested
(unclamped) limit, in which case it is returned with no upstream call;
otherwise (a shorter unexpired page, or no page) a fresh upstream fetch
is issued whose first variable is the limit clamped to the range 1 to
250. -/
theorem C5_list_cache_validity (s : Sys) (now : ℚ) (t1 t2 : ℤ) (limit : ℤ)
    (cursor : Option String) (out : UpstreamOutcome RawPage)
    (hs : s.connected = true) :
    (∀ c : ProductResponse, storeLookup (listKey cursor) s.listCache = some c →
       limit ≤ (c.edges.length : ℤ) →
       listProducts now t1 t2 out limit cursor s = (c, s)) ∧
    (∀ c : ProductResponse, storeLookup (listKey cursor) s.listCache = some c →
       (c.edges.length : ℤ) < limit →
       ((listProducts now t1 t2 out limit cursor s).2.upstreamCalls = s.upstreamCalls + 1 ∧
        (listProducts now t1 t2 out limit cursor s).2.sentFirsts
          = min (max 1 limit) 250 :: s.sentFirsts)) ∧
    (storeLookup (listKey cursor) s.listCache = none →
       ((listProducts now t1 t2 out limit cursor s).2.upstreamCalls = s.upstreamCalls + 1 ∧
        (listProducts now t1 t2 out limit cursor s).2.sentFirsts
          = min (max 1 limit) 250 :: s.sentFirsts)) := by
  refine ⟨?_, ?_, ?_⟩
  · intro c hcl hlen
    have hcl2 : getCachedProductsList cursor s = some c := by
      simp [getCachedProductsList, hs, hcl]
    simp only [listProducts, hcl2]
    rw [if_pos (ge_iff_le.mpr hlen)]
  · intro c hcl hlen
    have hcl2 : getCachedProductsList cursor s = some c := by
      simp [getCachedProductsList, hs, hcl]
    have hnot : ¬ ((c.edges.length : ℤ) ≥ limit) := not_le.mpr hlen
    simp only [listProducts, hcl2]
    rw [if_neg hnot]
    exact ⟨listFetch_calls now t1 t2 out (min (max 1 limit) 250) cursor s,
           listFetch_sentFirsts now t1 t2 out (min (max 1 limit) 250) cursor s⟩
  · intro hcl
    have hcl2 : getCachedProductsList cursor s = none := by
      simp [getCachedProductsList, hs, hcl]
    simp only [listProducts, hcl2]
    exact ⟨listFetch_calls now t1 t2 out (min (max 1 limit) 250) cursor s,
           listFetch_sentFirsts now t1 t2 out (min (max 1 limit) 250) cursor s⟩

/-- Witness for C5_list_cache_validity on sysShortList: the one-edge
cached page satisfies a request for limit 1 with no upstream call, and
is discarded as a miss for limit 10 and a fresh fetch with first = 10 is
issued; the out-of-range limit 300 is clamped to 250. -/
theorem C5_list_cache_validity_witness :
    listProducts 0 0 0 (.requestFailed "net") 1 none sysShortList = (pageOne, sysShortList) ∧
    (listProducts 0 0 0 (.requestFailed "net") 10 none sysShortList).2.upstreamCalls
      = sysShortList.upstreamCalls + 1 ∧
    (listProducts 0 0 0 (.requestFailed "net") 10 none sysShortList).2.sentFirsts
      = min (max 1 10) 250 :: sysShortList.sentFirsts ∧
    (listProducts 0 0 0 (.requestFailed "net") 300 none sysShortList).2.sentFirsts
      = min (max 1 300) 250 :: sysShortList.sentFirsts :=
  ⟨(C5_list_cache_validity sysShortList 0 0 0 1 none (.requestFailed "net") rfl).1
      pageOne rfl (by norm_num [pageOne]),
   ((C5_list_cache_validity sysShortList 0 0 0 10 none (.requestFailed "net") rfl).2.1
      pageOne rfl (by norm_num [pageOne])).1,
   ((C5_list_cache_validity sysShortList 0 0 0 10 none (.requestFailed "net") rfl).2.1
      pageOne rfl (by norm_num [pageOne])).2,
   ((C5_list_cache_validity sysShortList 0 0 0 300 none (.requestFailed "net") rfl).2.1
      pageOne rfl (by norm_num [pageOne])).2⟩

/-- C6: two successive getProductById calls for the same id within the
TTL window (the cache model keeps an entry until it expires), with the
upstream returning the product on the first call, issue exactly one
upstream query in total, and the second call returns the value cached by
the first call unchanged. -/
theorem C6_cache_idempotent (s : Sys) (id : String) (raw : RawProduct) (cost : ℚ)
    (now now2 : ℚ) (t1 t2 t3 t4 : ℤ)
    (hs : s.connected = true)
    (hmiss : storeLookup ("product:" ++ normalizeId id) s.cache = none) :
    (getProductById now t1 t2 (.http none cost (some raw)) id s).1
      = some (marshallProduct raw) ∧
    (getProductById now2 t3 t4 (.http none cost (some raw)) id
        (getProductById now t1 t2 (.http none cost (some raw)) id s).2).1
      = (getProductById now t1 t2 (.http none cost (some raw)) id s).1 ∧
    (getProductById now2 t3 t4 (.http none cost (some raw)) id
        (getProductById now t1 t2 (.http none cost (some raw)) id s).2).2.upstreamCalls
      = s.upstreamCalls + 1 := by
  have hc0 : getCachedProduct (normalizeId id) s = none := by
    simp [getCachedProduct, hs, hmiss]
  have h1 : getProductById now t1 t2 (.http none cost (some raw)) id s
      = (some (marshallProduct raw),
         cacheProduct (normalizeId id) (marshallProduct raw)
           (executeQuery (α := Option RawProduct) now t1 t2 none
             (.http none cost (some raw)) s).2) := by
    simp only [getProductById, hc0]
    rfl
  have hconn : ((executeQuery (α := Option RawProduct) now t1 t2 none
      (.http none cost (some raw)) s).2).connected = true := by
    rw [executeQuery_connected]; exact hs
  have hu := getCachedProduct_cacheProduct (normalizeId id) (marshallProduct raw)
      ((executeQuery (α := Option RawProduct) now t1 t2 none
        (.http none cost (some raw)) s).2) hconn
  have h2 : getProductById now2 t3 t4 (.http none cost (some raw)) id
      (cacheProduct (normalizeId id) (marshallProduct raw)
        (executeQuery (α := Option RawProduct) now t1 t2 none
          (.http none cost (some raw)) s).2)
      = (some (marshallProduct raw),
         cacheProduct (normalizeId id) (marshallProduct raw)
           (executeQuery (α := Option RawProduct) now t1 t2 none
             (.http none cost (some raw)) s).2) := by
    simp only [getProductById, hu]
  refine ⟨by simp only [h1], by simp only [h1, h2], ?_⟩
  simp only [h1, h2, cacheProduct_upstreamCalls, executeQuery_calls]

/-- Witness for C6_cache_idempotent on sysEmpty with product id 1. -/
theorem C6_cache_idempotent_witness :
    (getProductById 0 0 0 (.http none 10 (some rawSample)) "1" sysEmpty).1
      = some (marshallProduct rawSample) ∧
    (getProductById 1 0 0 (.http none 10 (some rawSample)) "1"
        (getProductById 0 0 0 (.http none 10 (some rawSample)) "1" sysEmpty).2).1
      = (getProductById 0 0 0 (.http none 10 (some rawSample)) "1" sysEmpty).1 ∧
    (getProductById 1 0 0 (.http none 10 (some rawSample)) "1"
        (getProductById 0 0 0 (.http none 10 (some rawSample)) "1" sysEmpty).2).2.upstreamCalls
      = sysEmpty.upstreamCalls + 1 :=
  C6_cache_idempotent sysEmpty "1" rawSample 10 0 1 0 0 0 0 rfl rfl

/-- C7: the gate before the upstream call uses the fixed estimated cost
of 10 points, while the points debited after an HTTP success equal the
actualQueryCost reported in the response: the persisted state after
executeQuery is the refilled value minus the actual cost, stamped with
the refill time. -/
theorem C7_cost_settlement (s : Sys) (st : RateLimitState) {α : Type} (now : ℚ)
    (t1 t2 : ℤ) (fv : Option ℤ) (errors : Option (List String)) (cost : ℚ) (payload : α)
    (hs : s.connected = true) (hst : s.rlState = some st) :
    estimatedQueryCost = 10 ∧
    ((executeQuery now t1 t2 fv (.http errors cost payload) s).2).rlState
      = some ⟨min MAX_POINTS (st.points + (now - st.lastRefillTime) / 1000 * REFILL_RATE) - cost,
              now⟩ := by
  refine ⟨rfl, ?_⟩
  rw [executeQuery_rlState_http now t1 t2 fv errors cost payload s hs]
  have hval : (refillBucket now s).1
      = min MAX_POINTS (st.points + (now - st.lastRefillTime) / 1000 * REFILL_RATE) := by
    simp [refillBucket, getRateLimitState, hs, hst]
  rw [hval]

/-- Witness for C7_cost_settlement on sysFive with actual cost 7 at
time 2. -/
theorem C7_cost_settlement_witness :
    estimatedQueryCost = 10 ∧
    ((executeQuery (α := Unit) 2 0 0 none (.http none 7 ()) sysFive).2).rlState
      = some ⟨min MAX_POINTS (5 + (2 - 0) / 1000 * REFILL_RATE) - 7, 2⟩ :=
  C7_cost_settlement sysFive ⟨5, 0⟩ 2 0 0 none none 7 () rfl rfl

/-- C8: recording the samples 100, 200, 300 into an empty metrics window
yields average 200 (the rounded mean), max 300, min 100 and 3 total
endpoint calls with the shopify class untouched; after reset, getMetrics
returns the all-zero snapshot for both classes. -/
theorem C8_metrics_computation :
    getMetrics (recordEndpointMetric 300 (recordEndpointMetric 200 (recordEndpointMetric 100 m0)))
      = { endpoint_response_times_ms := { average := 200, max := 300, min := 100 }
          total_endpoint_calls := 3
          average_shopify_call_responsetime_ms := 0
          total_shopify_api_calls := 0 } ∧
    getMetrics (resetMetrics
        (recordEndpointMetric 300 (recordEndpointMetric 200 (recordEndpointMetric 100 m0))))
      = zeroStats := by
  constructor
  · norm_num [getMetrics, recordEndpointMetric, m0, listMax, listMin, round_eq,
              List.foldl_cons, List.foldl_nil]
  · norm_num [getMetrics, resetMetrics, recordEndpointMetric, m0, zeroStats, listMax, listMin,
              round_eq]

/-- C10: an HTTP success whose body carries a nonempty GraphQL errors
list makes executeQuery record the elapsed time twice for that single
upstream call, once before the aggregated error is thrown and once in
the surrounding catch block, so the shopify call counter gains two and
the sample list gains both measurements. -/
theorem C10_double_metric {α : Type} (s : Sys) (now : ℚ) (t1 t2 : ℤ) (fv : Option ℤ)
    (es : List String) (cost : ℚ) (payload : α)
    (hm : s.metrics.isConnected = true) (hne : es ≠ []) :
    (executeQuery now t1 t2 fv (.http (some es) cost payload) s).1
      = Except.error ("GraphQL Error: " ++ String.intercalate "; " es) ∧
    ((executeQuery now t1 t2 fv (.http (some es) cost payload) s).2).metrics.shopifyCalls
      = s.metrics.shopifyCalls + 2 ∧
    ((executeQuery now t1 t2 fv (.http (some es) cost payload) s).2).metrics.shopifyTimes
      = t2 :: t1 :: s.metrics.shopifyTimes := by
  have hmet : ((executeQuery now t1 t2 fv (.http (some es) cost payload) s).2).metrics
      = recordShopifyMetric t2 (recordShopifyMetric t1 s.metrics) := by
    simp [executeQuery, consume_metrics]
  refine ⟨rfl, ?_, ?_⟩
  · rw [hmet]
    simp [recordShopifyMetric, hm]
  · rw [hmet]
    simp [recordShopifyMetric, hm]

/-- Witness for C10_double_metric on sysEmpty with errors list boom and
elapsed times 5 and 9. -/
theorem C10_double_metric_witness :
    (executeQuery (α := Unit) 0 5 9 none (.http (some ["boom"]) 10 ()) sysEmpty).1
      = Except.error ("GraphQL Error: " ++ String.intercalate "; " ["boom"]) ∧
    ((executeQuery (α := Unit) 0 5 9 none
        (.http (some ["boom"]) 10 ()) sysEmpty).2).metrics.shopifyCalls
      = sysEmpty.metrics.shopifyCalls + 2 ∧
    ((executeQuery (α := Unit) 0 5 9 none
        (.http (some ["boom"]) 10 ()) sysEmpty).2).metrics.shopifyTimes
      = 9 :: 5 :: sysEmpty.metrics.shopifyTimes :=
  C10_double_metric sysEmpty 0 5 9 none ["boom"] 10 () rfl (by simp)
